import Mathlib

/-!
Verification development for the `open-api-generator` CLI (src/index.js).

The script is a single linear pipeline: validate the `-f` argument, extract a
version token from the spec file by a naive line scan, create the versioned
directory tree, register npm scripts in a manifest, relocate the spec file and
the manifest, then invoke external generators.  Everything up to and including
the relocation step (source lines 19-116) is embedded below; the later steps
only shell out to external processes and are outside the model.

Strings are modelled by Lean `String` (a wrapper around `List Char`), and the
JavaScript string operations used by the script (`replace` with a string
pattern, `replaceAll`, `trim`, `includes`, `path.extname`, `substring(1)`) are
given explicit executable definitions.
-/

namespace OpenApiGen

/-- JS `String.prototype.replace` with a string pattern: replaces only the
first occurrence of `pat` (for the empty pattern, JS prepends `repl`). -/
def jsReplaceFirst (pat repl : List Char) : List Char → List Char
  | [] => if pat.isEmpty then repl else []
  | c :: rest =>
    if pat.isPrefixOf (c :: rest) then repl ++ (c :: rest).drop pat.length
    else c :: jsReplaceFirst pat repl rest

/-- Fuelled worker for `jsReplaceAll`; each step consumes at least one input
character, so fuel `s.length + 1` is always sufficient. -/
def replaceAllFuel (pat repl : List Char) : Nat → List Char → List Char
  | 0, s => s
  | _ + 1, [] => if pat.isEmpty then repl else []
  | fuel + 1, c :: rest =>
    if pat.isPrefixOf (c :: rest) ∧ ¬pat.isEmpty then
      repl ++ replaceAllFuel pat repl fuel ((c :: rest).drop pat.length)
    else if pat.isEmpty then
      repl ++ c :: replaceAllFuel pat repl fuel rest
    else
      c :: replaceAllFuel pat repl fuel rest

/-- JS `String.prototype.replaceAll` with a string pattern: replaces every
non-overlapping occurrence of `pat`, scanning left to right. -/
def jsReplaceAll (pat repl s : List Char) : List Char :=
  replaceAllFuel pat repl (s.length + 1) s

/-- Whitespace characters relevant to JS `trim` for the strings this tool
handles (space, tab, carriage return, line feed). -/
def isJsSpace (c : Char) : Bool :=
  c = ' ' || c = '\t' || c = '\n' || c = '\r'

/-- JS `String.prototype.trim`: strip whitespace from both ends. -/
def jsTrim (s : List Char) : List Char :=
  ((s.dropWhile isJsSpace).reverse.dropWhile isJsSpace).reverse

/-- Substring occurrence test on character lists (JS `String.prototype.includes`). -/
def containsSub (needle : List Char) : List Char → Bool
  | [] => needle.isEmpty
  | c :: rest => needle.isPrefixOf (c :: rest) || containsSub needle rest

/-- JS `needle ∈ s` as used by `line.includes('version')`. -/
def includesStr (needle s : String) : Bool :=
  containsSub needle.data s.data

end OpenApiGen

namespace OpenApiGen

/-- `path.basename`-style final component: the characters after the last `/`. -/
def basenameOf (p : List Char) : List Char :=
  (p.reverse.takeWhile (fun c => c ≠ '/')).reverse

/-- Node `path.extname`: the part of the final path component from its last
dot onward; empty when the component has no dot or only a leading dot. -/
def extnameOf (p : List Char) : List Char :=
  let b := basenameOf p
  let after := b.reverse.takeWhile (fun c => c ≠ '.')
  if after.length = b.length then []
  else if after.length + 1 = b.length then []
  else b.drop (b.length - after.length - 1)

/-- `path.extname` on `String`s (source line 33). -/
def extname (p : String) : String :=
  ⟨extnameOf p.data⟩

/-- JS `extension.substring(1)` (source line 40). -/
def substringFrom1 (s : String) : String :=
  ⟨s.data.drop 1⟩

/-- The `openApiExtensions` set built on source lines 34-37; membership in the
JS `Set` coincides with membership in this list. -/
def openApiExtensions : List String :=
  ["yaml", "yml", "json"]

/-- The transformation applied to the first line containing "version"
(source line 51): `'v' + line.replace('version:', '').replaceAll('\x27', "")
.replaceAll('.', '-').trim()`. -/
def versionToken (line : String) : String :=
  ⟨'v' :: jsTrim (jsReplaceAll ['.'] ['-']
      (jsReplaceAll ['\x27'] []
        (jsReplaceFirst ("version:".data) [] line.data)))⟩

/-- The version-scan of source lines 47-55: `versionNumber` starts as the
sentinel "0" and is set from the first line that contains "version" (the
`eachLine` callback returns `false` there, stopping the scan). -/
def extractVersion (content : List String) : String :=
  match content.find? (fun line => includesStr "version" line) with
  | some line => versionToken line
  | none => "0"

end OpenApiGen

namespace OpenApiGen

/-- A flat model of the file system: files (path to line contents, as the
line reader sees them) and directories, both keyed by raw path strings. -/
structure FS where
  files : List (String × List String)
  dirs : List String
deriving DecidableEq, Repr

/-- Content of the file at `p`, when a file is recorded there. -/
def FS.lookupFile (fs : FS) (p : String) : Option (List String) :=
  (fs.files.find? (fun e => e.1 == p)).map (fun e => e.2)

/-- `fs.existsSync(p)`: true when a file or a directory is recorded at `p`. -/
def FS.existsSync (fs : FS) (p : String) : Bool :=
  (fs.lookupFile p).isSome || fs.dirs.contains p

/-- Write (or overwrite) the file at `p`. -/
def FS.setFile (fs : FS) (p : String) (content : List String) : FS :=
  { fs with files := (p, content) :: fs.files.filter (fun e => e.1 != p) }

/-- Remove the file at `p` when present. -/
def FS.removeFile (fs : FS) (p : String) : FS :=
  { fs with files := fs.files.filter (fun e => e.1 != p) }

/-- Split a character list on a separator character. -/
def splitOnChar (sep : Char) (s : List Char) : List (List Char) :=
  match s with
  | [] => [[]]
  | c :: rest =>
    match splitOnChar sep rest with
    | [] => if c = sep then [[], []] else [[c]]
    | cur :: done => if c = sep then [] :: cur :: done else (c :: cur) :: done

/-- Join path components with `/`. -/
def joinWithSlash : List (List Char) → List Char
  | [] => []
  | [x] => x
  | x :: xs => x ++ '/' :: joinWithSlash xs

/-- All ancestor paths of `p` (including `p` itself), as created by the
recursive `make-dir` package. -/
def ancestorPaths (p : String) : List String :=
  let comps := splitOnChar '/' p.data
  (List.range comps.length).map (fun i => ⟨joinWithSlash (comps.take (i + 1))⟩)

/-- `makeDir(p)` (the `make-dir` package): create `p` and all its ancestors. -/
def FS.makeDir (fs : FS) (p : String) : FS :=
  { fs with dirs := fs.dirs ++ (ancestorPaths p).filter (fun d => !fs.dirs.contains d) }

/-- The error outcomes of the pipeline: the five reported validation/domain
errors of the script, plus rejections of the filesystem promises and of
`npm-add-script` (which throws on a duplicate key). -/
inductive RunErr where
  | noFileArg
  | fileNotFound
  | badExtension
  | readNotAFile
  | noVersionFound
  | versionDirExists
  | duplicateScriptKey
  | copySrcMissing
  | renameSrcMissing
  | moveSrcMissing
deriving DecidableEq, Repr

/-- `fsPromises.copyFile(src, dst)`: rejects when `src` is not a file,
otherwise writes `dst` with the contents of `src`. -/
def FS.copyFile (fs : FS) (src dst : String) : Except RunErr FS :=
  match fs.lookupFile src with
  | none => .error .copySrcMissing
  | some content => .ok (fs.setFile dst content)

/-- `fsPromises.rename(src, dst)`: rejects when `src` is not a file,
otherwise moves the contents of `src` to `dst`. -/
def FS.renameFile (fs : FS) (src dst : String) : Except RunErr FS :=
  match fs.lookupFile src with
  | none => .error .renameSrcMissing
  | some content => .ok ((fs.removeFile src).setFile dst content)

/-- `moveFile(src, dst)` (the `move-file` package, overwrite by default). -/
def FS.moveFile (fs : FS) (src dst : String) : Except RunErr FS :=
  match fs.lookupFile src with
  | none => .error .moveSrcMissing
  | some content => .ok ((fs.removeFile src).setFile dst content)

end OpenApiGen

namespace OpenApiGen

/-- `npmAddScript({key, value})`: appends the entry to the manifest's script
registry; the package errors when the key is already registered. -/
def npmAddScript (reg : List (String × String)) (key value : String) :
    Except RunErr (List (String × String)) :=
  if reg.any (fun e => e.1 == key) then .error .duplicateScriptKey
  else .ok (reg ++ [(key, value)])

/-- Register a list of scripts in order via `npmAddScript`. -/
def addScripts (reg : List (String × String)) :
    List (String × String) → Except RunErr (List (String × String))
  | [] => .ok reg
  | (k, v) :: rest =>
    match npmAddScript reg k v with
    | .error e => .error e
    | .ok reg2 => addScripts reg2 rest

/-- The 21 `npmAddScript` calls of source lines 87-111, in source order,
with the two interpolated names `fileNameWithVersion` (`fnv`) and
`fileNameWithVersionNoExtension` (`fnvne`). -/
def scaffoldScripts (fnv fnvne : String) : List (String × String) :=
  [ ("make:swagger", "make-dir swagger-stub"),
    ("generate:swagger",
      "npm run delete:swagger && npm run make:swagger && openapi-generator-cli generate -i open-api/"
        ++ fnv ++ " -g nodejs-express-server -o swagger-stub --additional-properties=serverPort=9999"),
    ("delete:swagger", "rimraf swagger-stub"),
    ("make:docs", "make-dir html-docs"),
    ("delete:docs", "rimraf html-docs"),
    ("generate:docs",
      "npm run delete:docs && npm run make:docs && openapi-generator-cli generate -i open-api/"
        ++ fnv ++ " -g html2 -o html-docs"),
    ("make:markdown", "make-dir markdown-docs"),
    ("generate:markdown",
      "npm run delete:markdown && npm run make:markdown && widdershins open-api/"
        ++ fnv ++ " -o markdown-docs/" ++ fnvne
        ++ "_dirty.md --omitHeader --expandBody --language_tabs \x27javascript:JavaScript\x27 && npm run markdown:prepare"),
    ("delete:markdown", "rimraf markdown-docs"),
    ("markdown:tidy",
      "tidy-markdown < ./markdown-docs/" ++ fnvne ++ "_dirty.md > ./markdown-docs/" ++ fnvne ++ ".md"),
    ("markdown:remove-comments",
      "replace-in-files --string=\"<!-- backwards compatibility -->\" \"<!-- Generator: Widdershins v4.0.1 -->\" --replacement=\x27\x27 ./markdown-docs/"
        ++ fnvne ++ ".md"),
    ("markdown:remove-empty-links",
      "replace-in-files --string=\"[]()\" --replacement=\x27\x27 markdown-docs/" ++ fnvne ++ ".md"),
    ("markdown:remove-aside",
      "replace-in-files --string=\"</aside>\" --replacement=\x27**\x27 markdown-docs/" ++ fnvne ++ ".md"),
    ("markdown:replace-warnings",
      "replace-in-files --regex=\"<aside[^>]*>\" --replacement=\x27**\x27 markdown-docs/" ++ fnvne ++ ".md"),
    ("markdown:remove-dirty", "rimraf markdown-docs/" ++ fnvne ++ "_dirty.md"),
    ("markdown:prepare",
      "npm run markdown:tidy && npm run markdown:remove-comments && npm run markdown:remove-empty-links && npm run markdown:remove-aside && npm run markdown:replace-warnings && npm run markdown:remove-dirty"),
    ("generate", "npm run generate:swagger && npm run generate:docs && npm run generate:markdown"),
    ("start:swagger", "cd swagger-stub && npm start"),
    ("start:prism", "prism mock open-api/" ++ fnv),
    ("start:browser", "wait-on http://localhost:9999/api-docs && start http://localhost:9999/api-docs\""),
    ("start", "concurrently -n swagger,prism,browser \"npm run start:swagger\" \"npm run start:prism\" \"npm run start:browser\"") ]

end OpenApiGen

namespace OpenApiGen

/-- The program's input: the `-f` argument (absent when the flag was not
passed) and the initial file system. -/
structure Input where
  argvF : Option String
  fs : FS
deriving DecidableEq, Repr

/-- Observable state of a run: the file system and the manifest's script
registry (empty until `npm init` creates the manifest). -/
structure RunState where
  fs : FS
  scripts : List (String × String)
deriving DecidableEq, Repr

/-- Outcome of a run: an early return or rejection with an error, or
successful completion of the modelled pipeline. -/
inductive RunResult where
  | failed (e : RunErr) (st : RunState)
  | ok (st : RunState)
deriving DecidableEq, Repr

/-- The error of a result, if any. -/
def resultErr : RunResult → Option RunErr
  | .failed e _ => some e
  | .ok _ => none

/-- The state carried by a result. -/
def resultState : RunResult → RunState
  | .failed _ st => st
  | .ok st => st

/-- `fileName.replace(extension, `-${versionNumber}${extension}`)`
(source line 62). -/
def fileNameWithVersionOf (fileName extension versionNumber : String) : String :=
  ⟨jsReplaceFirst extension.data ("-" ++ versionNumber ++ extension).data fileName.data⟩

/-- `fileNameWithVersion.replace(extension, '')` (source line 63). -/
def dropExtensionOnce (fnv extension : String) : String :=
  ⟨jsReplaceFirst extension.data [] fnv.data⟩

/-- Destination of the `copyFile` call on source line 114: the versioned
`open-api` directory with the user-supplied file name appended verbatim. -/
def copyDestination (versionNumber fileName : String) : String :=
  "api-spec/" ++ versionNumber ++ "/open-api/" ++ fileName

/-- Source of the `rename` call on source line 115; note the literal
`ozpen-api` path segment in the source. -/
def renameSource (versionNumber fileName : String) : String :=
  "api-spec/" ++ versionNumber ++ "/ozpen-api/" ++ fileName

/-- Source lines 62-116, entered once a version number other than the
sentinel has been extracted: build the versioned names, re-check the input
file, guard against an existing versioned directory, create the three
directories, initialise the manifest (`npm init -y`), register the 21
scripts, then copy the spec, rename it to the versioned name, and move the
manifest into the versioned directory. -/
def scaffoldAndRelocate (fs : FS) (fileName extension versionNumber : String) : RunResult :=
  let st0 : RunState := { fs := fs, scripts := [] }
  let fnv := fileNameWithVersionOf fileName extension versionNumber
  let fnvne := dropExtensionOnce fnv extension
  if fs.existsSync fileName = false then .failed .fileNotFound st0
  else if fs.existsSync ("./api-spec/" ++ versionNumber) = true then
    .failed .versionDirExists st0
  else
    let fs1 := ((fs.makeDir ("api-spec/" ++ versionNumber ++ "/open-api")).makeDir
        ("api-spec/" ++ versionNumber ++ "/swagger-stub")).makeDir
        ("api-spec/" ++ versionNumber ++ "/html-docs")
    let fs2 := fs1.setFile "package.json" []
    match addScripts [] (scaffoldScripts fnv fnvne) with
    | .error e => .failed e { fs := fs2, scripts := [] }
    | .ok scripts =>
      match fs2.copyFile fileName (copyDestination versionNumber fileName) with
      | .error e => .failed e { fs := fs2, scripts := scripts }
      | .ok fs3 =>
        match fs3.renameFile (renameSource versionNumber fileName)
            (copyDestination versionNumber fnv) with
        | .error e => .failed e { fs := fs3, scripts := scripts }
        | .ok fs4 =>
          match fs4.moveFile "package.json" ("api-spec/" ++ versionNumber ++ "/package.json") with
          | .error e => .failed e { fs := fs4, scripts := scripts }
          | .ok fs5 => .ok { fs := fs5, scripts := scripts }

/-- The pipeline of source lines 19-116 (the remaining source lines only
invoke external processes).  Validation order follows the source: the `-f`
flag (a JS falsy check, so the empty string also fails), `existsSync`,
extension membership, then the version scan and the sentinel check. -/
def run (inp : Input) : RunResult :=
  let st0 : RunState := { fs := inp.fs, scripts := [] }
  match inp.argvF with
  | none => .failed .noFileArg st0
  | some fileName =>
    if fileName = "" then .failed .noFileArg st0
    else if inp.fs.existsSync fileName = false then .failed .fileNotFound st0
    else
      let extension := extname fileName
      if openApiExtensions.contains (substringFrom1 extension) = false then
        .failed .badExtension st0
      else
        match inp.fs.lookupFile fileName with
        | none => .failed .readNotAFile st0
        | some content =>
          let versionNumber := extractVersion content
          if versionNumber = "0" then .failed .noVersionFound st0
          else scaffoldAndRelocate inp.fs fileName extension versionNumber

/-- The end-to-end input of the spec's scenario: `-f spec.yaml`, a spec file
whose version line reads `version: 2.0.0`, on a fresh working directory. -/
def c1Input : Input :=
  { argvF := some "spec.yaml",
    fs := { files := [("spec.yaml", ["version: 2.0.0"])], dirs := [] } }

/-- Input for the C4 witness: a valid spec file while `./api-spec/v2-0-0`
already exists. -/
def c4Input : Input :=
  { argvF := some "spec.yaml",
    fs := { files := [("spec.yaml", ["version: 2.0.0"])],
            dirs := ["./api-spec/v2-0-0"] } }

/-- Input for the C5 witness: a spec file with no "version" line. -/
def c5Input : Input :=
  { argvF := some "spec.yaml",
    fs := { files := [("spec.yaml", ["openapi: 3.0.0", "info:"])], dirs := [] } }

/-- Input for the C6 witness: the `-f` flag was not passed. -/
def c6Input : Input :=
  { argvF := none, fs := { files := [("other.txt", ["x"])], dirs := [] } }

/-- Input for the C9 witness: a spec file whose only "version" line sits
after an unrelated first line. -/
def c9Input : Input :=
  { argvF := some "spec.yaml",
    fs := { files := [("spec.yaml", ["openapi: 3.0.0", "version: 2.0.0"])], dirs := [] } }

end OpenApiGen

namespace OpenApiGen

/-- A path recorded as a file satisfies `existsSync`. -/
theorem existsSync_of_lookupFile {fs : FS} {p : String} {c : List String}
    (h : fs.lookupFile p = some c) : fs.existsSync p = true := by
  unfold FS.existsSync
  rw [h]
  rfl

/-- Every extracted version token starts with the prepended `v`, so it can
never equal the sentinel `"0"`. -/
theorem versionToken_ne_sentinel (line : String) : versionToken line ≠ "0" := by
  intro h
  have hd : (versionToken line).data = ("0" : String).data := congrArg String.data h
  simp only [versionToken] at hd
  injection hd with h1 _
  exact absurd h1 (by decide)

/-- The scan leaves the sentinel exactly when no line contains "version". -/
theorem extractVersion_eq_sentinel_iff (content : List String) :
    extractVersion content = "0" ↔ ∀ l ∈ content, includesStr "version" l = false := by
  unfold extractVersion
  cases hf : content.find? (fun line => includesStr "version" line) with
  | none =>
    rw [List.find?_eq_none] at hf
    simp only [true_iff]
    exact fun l hl => by simpa using hf l hl
  | some line =>
    constructor
    · intro h
      exact absurd h (versionToken_ne_sentinel line)
    · intro h
      have hmem := List.mem_of_find?_eq_some hf
      have hp := List.find?_some hf
      rw [h line hmem] at hp
      exact absurd hp (by decide)

/-- A string with a non-empty left part of an append is non-empty. -/
theorem str_append_ne_empty_left (a b : String) (ha : a ≠ "") : a ++ b ≠ "" := by
  intro h
  apply ha
  have hd := congrArg String.data h
  rw [String.data_append] at hd
  exact String.ext (List.append_eq_nil.mp hd).1

/-- After the four validation steps succeed, the run is decided by the
sentinel check and then by `scaffoldAndRelocate`. -/
theorem run_eq_of_valid (inp : Input) (f : String) (content : List String)
    (hf : inp.argvF = some f) (hne : f ≠ "")
    (hread : inp.fs.lookupFile f = some content)
    (hext : openApiExtensions.contains (substringFrom1 (extname f)) = true) :
    run inp = if extractVersion content = "0"
      then .failed .noVersionFound { fs := inp.fs, scripts := [] }
      else scaffoldAndRelocate inp.fs f (extname f) (extractVersion content) := by
  unfold run
  rw [hf]
  have he : inp.fs.existsSync f = true := existsSync_of_lookupFile hread
  have hext2 : substringFrom1 (extname f) ∈ openApiExtensions := by simpa using hext
  simp [hne, he, hext2, hread]

example : extname "spec.yaml" = ".yaml" := rfl
example : extname "a/b/spec.json" = ".json" := rfl
example : extname ".bashrc" = "" := rfl
example : extname "noext" = "" := rfl
example : substringFrom1 ".yaml" = "yaml" := rfl
example : versionToken "version: \x271.2.3\x27" = "v1-2-3" := rfl
example : versionToken "  version: 2.0.0" = "v2-0-0" := rfl
example : extractVersion ["openapi: 3.0.0", "version: 2.0.0"] = "v2-0-0" := rfl
example : extractVersion ["a", "b"] = "0" := rfl
example : includesStr "version" "  version: 2.0.0" = true := rfl
example : includesStr "&&" "a && b" = true := rfl

/-- C1: on the spec's own end-to-end scenario the relocation step fails: the
`rename` on source line 115 reads from the misspelled `ozpen-api` directory,
which was never created and holds no file, so the promise rejects; at that
point `api-spec/v2-0-0/open-api/` holds the file under its original name
`spec.yaml`, not the required `spec-v2-0-0.yaml`. -/
theorem c1_rename_step_always_fails :
    resultErr (run c1Input) = some RunErr.renameSrcMissing ∧
    renameSource "v2-0-0" "spec.yaml" = "api-spec/v2-0-0/ozpen-api/spec.yaml" ∧
    (resultState (run c1Input)).fs.existsSync "api-spec/v2-0-0/ozpen-api/spec.yaml" = false ∧
    (resultState (run c1Input)).fs.lookupFile "api-spec/v2-0-0/open-api/spec.yaml"
      = some ["version: 2.0.0"] ∧
    (resultState (run c1Input)).fs.lookupFile "api-spec/v2-0-0/open-api/spec-v2-0-0.yaml"
      = none :=
  ⟨rfl, rfl, rfl, rfl, rfl⟩

/-- C2 counterexample: the registered `start` script does not chain its
sub-commands with `&&` — its command string contains no occurrence of `&&`. -/
theorem c2_start_script_not_and_chained :
    ((scaffoldScripts "spec-v2-0-0.yaml" "spec-v2-0-0").lookup "start").map
      (fun v => includesStr "&&" v) = some false :=
  rfl

/-- C2 amended: the composite `generate` script chains its three stages with
`&&` (so an earlier failure short-circuits the later stages), while the
`start` script instead hands its three sub-commands to `concurrently`, which
runs them in parallel with no `&&` chaining. -/
theorem c2_generate_and_chained_start_concurrently (fnv fnvne : String) :
    (scaffoldScripts fnv fnvne).lookup "generate"
      = some "npm run generate:swagger && npm run generate:docs && npm run generate:markdown" ∧
    includesStr "&&"
      "npm run generate:swagger && npm run generate:docs && npm run generate:markdown" = true ∧
    (scaffoldScripts fnv fnvne).lookup "start"
      = some "concurrently -n swagger,prism,browser \"npm run start:swagger\" \"npm run start:prism\" \"npm run start:browser\"" ∧
    includesStr "&&"
      "concurrently -n swagger,prism,browser \"npm run start:swagger\" \"npm run start:prism\" \"npm run start:browser\"" = false :=
  ⟨rfl, rfl, rfl, rfl⟩

/-- C2 witness: the amended statement at the end-to-end scenario's names. -/
theorem c2_generate_and_chained_start_concurrently_witness :
    (scaffoldScripts "spec-v2-0-0.yaml" "spec-v2-0-0").lookup "generate"
      = some "npm run generate:swagger && npm run generate:docs && npm run generate:markdown" ∧
    includesStr "&&"
      "npm run generate:swagger && npm run generate:docs && npm run generate:markdown" = true ∧
    (scaffoldScripts "spec-v2-0-0.yaml" "spec-v2-0-0").lookup "start"
      = some "concurrently -n swagger,prism,browser \"npm run start:swagger\" \"npm run start:prism\" \"npm run start:browser\"" ∧
    includesStr "&&"
      "concurrently -n swagger,prism,browser \"npm run start:swagger\" \"npm run start:prism\" \"npm run start:browser\"" = false :=
  c2_generate_and_chained_start_concurrently "spec-v2-0-0.yaml" "spec-v2-0-0"

/-- C3: when the first line containing "version" is exactly
`version: '1.2.3'`, the derived token is exactly `v1-2-3`. -/
theorem c3_quoted_version_token (content : List String)
    (h : content.find? (fun l => includesStr "version" l) = some "version: \x271.2.3\x27") :
    extractVersion content = "v1-2-3" := by
  unfold extractVersion
  rw [h]
  rfl

/-- C3 witness: a one-line spec file with the quoted version. -/
theorem c3_quoted_version_token_witness :
    extractVersion ["version: \x271.2.3\x27"] = "v1-2-3" :=
  c3_quoted_version_token ["version: \x271.2.3\x27"] rfl

/-- C7: whenever the 21 `npmAddScript` calls all succeed, the resulting
registry has pairwise-distinct keys, contains every documented key, and every
registered command string is non-empty. -/
theorem c7_scaffolded_manifest_scripts (fnv fnvne : String) (reg : List (String × String))
    (hreg : addScripts [] (scaffoldScripts fnv fnvne) = .ok reg) :
    (reg.map Prod.fst).Nodup ∧
    (∀ k ∈ (["make:swagger", "generate:swagger", "delete:swagger", "make:docs",
        "generate:docs", "delete:docs", "make:markdown", "generate:markdown",
        "delete:markdown", "generate", "start", "start:swagger", "start:prism",
        "start:browser"] : List String), k ∈ reg.map Prod.fst) ∧
    (∀ kv ∈ reg, kv.2 ≠ "") := by
  have hok : addScripts [] (scaffoldScripts fnv fnvne) = .ok (scaffoldScripts fnv fnvne) := by
    simp [addScripts, npmAddScript, scaffoldScripts]
  rw [hok] at hreg
  have hr : reg = scaffoldScripts fnv fnvne := (Except.ok.inj hreg).symm
  subst hr
  refine ⟨?_, ?_, ?_⟩
  · rw [show (scaffoldScripts fnv fnvne).map Prod.fst
      = ["make:swagger", "generate:swagger", "delete:swagger", "make:docs", "delete:docs",
          "generate:docs", "make:markdown", "generate:markdown", "delete:markdown",
          "markdown:tidy", "markdown:remove-comments", "markdown:remove-empty-links",
          "markdown:remove-aside", "markdown:replace-warnings", "markdown:remove-dirty",
          "markdown:prepare", "generate", "start:swagger", "start:prism", "start:browser",
          "start"] from rfl]
    decide
  · rw [show (scaffoldScripts fnv fnvne).map Prod.fst
      = ["make:swagger", "generate:swagger", "delete:swagger", "make:docs", "delete:docs",
          "generate:docs", "make:markdown", "generate:markdown", "delete:markdown",
          "markdown:tidy", "markdown:remove-comments", "markdown:remove-empty-links",
          "markdown:remove-aside", "markdown:replace-warnings", "markdown:remove-dirty",
          "markdown:prepare", "generate", "start:swagger", "start:prism", "start:browser",
          "start"] from rfl]
    decide
  · intro kv hkv
    simp only [scaffoldScripts, List.mem_cons, List.not_mem_nil, or_false] at hkv
    rcases hkv with rfl | rfl | rfl | rfl | rfl | rfl | rfl | rfl | rfl | rfl | rfl | rfl |
      rfl | rfl | rfl | rfl | rfl | rfl | rfl | rfl | rfl
    all_goals repeat' apply str_append_ne_empty_left
    all_goals decide

/-- C7 witness: the registration succeeds on the end-to-end scenario's names
and the registry satisfies all three properties. -/
theorem c7_scaffolded_manifest_scripts_witness :
    ((scaffoldScripts "spec-v2-0-0.yaml" "spec-v2-0-0").map Prod.fst).Nodup ∧
    (∀ k ∈ (["make:swagger", "generate:swagger", "delete:swagger", "make:docs",
        "generate:docs", "delete:docs", "make:markdown", "generate:markdown",
        "delete:markdown", "generate", "start", "start:swagger", "start:prism",
        "start:browser"] : List String),
      k ∈ (scaffoldScripts "spec-v2-0-0.yaml" "spec-v2-0-0").map Prod.fst) ∧
    (∀ kv ∈ scaffoldScripts "spec-v2-0-0.yaml" "spec-v2-0-0", kv.2 ≠ "") :=
  c7_scaffolded_manifest_scripts "spec-v2-0-0.yaml" "spec-v2-0-0"
    (scaffoldScripts "spec-v2-0-0.yaml" "spec-v2-0-0")
    (by simp [addScripts, npmAddScript, scaffoldScripts])

/-- C4: when the prior validations pass and `./api-spec/<version>` already
exists at the check point (source line 72), the run returns the
version-exists error with the file system exactly as it was: nothing is
modified, created, or written. -/
theorem c4_existing_version_dir_aborts_unchanged (inp : Input) (f : String)
    (content : List String)
    (hf : inp.argvF = some f) (hne : f ≠ "")
    (hread : inp.fs.lookupFile f = some content)
    (hext : openApiExtensions.contains (substringFrom1 (extname f)) = true)
    (hv : extractVersion content ≠ "0")
    (hdir : inp.fs.existsSync ("./api-spec/" ++ extractVersion content) = true) :
    run inp = .failed .versionDirExists { fs := inp.fs, scripts := [] } := by
  rw [run_eq_of_valid inp f content hf hne hread hext, if_neg hv]
  unfold scaffoldAndRelocate
  have he : inp.fs.existsSync f = true := existsSync_of_lookupFile hread
  simp [he, hdir]

/-- C4 witness. -/
theorem c4_existing_version_dir_aborts_unchanged_witness :
    run c4Input = .failed .versionDirExists { fs := c4Input.fs, scripts := [] } :=
  c4_existing_version_dir_aborts_unchanged c4Input "spec.yaml" ["version: 2.0.0"]
    rfl (by decide) rfl rfl (by decide) rfl

/-- C5: when the prior validations pass and no line of the spec file contains
"version", the sentinel `"0"` is unchanged and the run aborts with the
no-version error before any directory is created (the file system of the
terminal state is the input file system). -/
theorem c5_missing_version_aborts_before_mkdir (inp : Input) (f : String)
    (content : List String)
    (hf : inp.argvF = some f) (hne : f ≠ "")
    (hread : inp.fs.lookupFile f = some content)
    (hext : openApiExtensions.contains (substringFrom1 (extname f)) = true)
    (hnov : ∀ l ∈ content, includesStr "version" l = false) :
    extractVersion content = "0" ∧
    run inp = .failed .noVersionFound { fs := inp.fs, scripts := [] } := by
  have h0 : extractVersion content = "0" := (extractVersion_eq_sentinel_iff content).mpr hnov
  exact ⟨h0, by rw [run_eq_of_valid inp f content hf hne hread hext, if_pos h0]⟩

/-- C5 witness. -/
theorem c5_missing_version_aborts_before_mkdir_witness :
    extractVersion ["openapi: 3.0.0", "info:"] = "0" ∧
    run c5Input = .failed .noVersionFound { fs := c5Input.fs, scripts := [] } :=
  c5_missing_version_aborts_before_mkdir c5Input "spec.yaml" ["openapi: 3.0.0", "info:"]
    rfl (by decide) rfl rfl (by decide)

/-- C6: on each validation failure — the `-f` flag missing (or empty, which
JS treats as falsy), a path that does not exist, or an extension outside
{yaml, yml, json} — the run terminates with one of the three validation
errors and the file system of the terminal state is exactly the input file
system: no directory was created and no file was written. -/
theorem c6_invalid_input_aborts_unchanged (inp : Input)
    (h : inp.argvF = none ∨ inp.argvF = some "" ∨
      (∃ f, inp.argvF = some f ∧ inp.fs.existsSync f = false) ∨
      (∃ f, inp.argvF = some f ∧
        openApiExtensions.contains (substringFrom1 (extname f)) = false)) :
    ∃ e, run inp = .failed e { fs := inp.fs, scripts := [] } ∧
      (e = .noFileArg ∨ e = .fileNotFound ∨ e = .badExtension) := by
  rcases h with h | h | ⟨f, hf, hex⟩ | ⟨f, hf, hext⟩
  · exact ⟨.noFileArg, by simp [run, h], Or.inl rfl⟩
  · exact ⟨.noFileArg, by simp [run, h], Or.inl rfl⟩
  · by_cases hfe : f = ""
    · exact ⟨.noFileArg, by simp [run, hf, hfe], Or.inl rfl⟩
    · exact ⟨.fileNotFound, by simp [run, hf, hfe, hex], Or.inr (Or.inl rfl)⟩
  · by_cases hfe : f = ""
    · exact ⟨.noFileArg, by simp [run, hf, hfe], Or.inl rfl⟩
    · by_cases hex : inp.fs.existsSync f = true
      · refine ⟨.badExtension, ?_, Or.inr (Or.inr rfl)⟩
        have hext2 : substringFrom1 (extname f) ∉ openApiExtensions := by simpa using hext
        simp [run, hf, hfe, hex, hext2]
      · have hex2 : inp.fs.existsSync f = false := by simpa using hex
        exact ⟨.fileNotFound, by simp [run, hf, hfe, hex2], Or.inr (Or.inl rfl)⟩

/-- C6 witness. -/
theorem c6_invalid_input_aborts_unchanged_witness :
    ∃ e, run c6Input = .failed e { fs := c6Input.fs, scripts := [] } ∧
      (e = .noFileArg ∨ e = .fileNotFound ∨ e = .badExtension) :=
  c6_invalid_input_aborts_unchanged c6Input (Or.inl rfl)

/-- C8: when some line of the spec file contains "version", the scan splits
the file at the first such line — every earlier line lacks the substring —
and the extracted version is that line's transformation (key token removed,
quotes removed, dots turned to dashes, whitespace trimmed, `v` prepended,
which is what `versionToken` does). -/
theorem c8_version_from_first_matching_line (content : List String)
    (h : content.any (fun l => includesStr "version" l) = true) :
    ∃ pre line post, content = pre ++ line :: post ∧
      (∀ l ∈ pre, includesStr "version" l = false) ∧
      includesStr "version" line = true ∧
      extractVersion content = versionToken line := by
  induction content with
  | nil => simp at h
  | cons c rest ih =>
    by_cases hc : includesStr "version" c = true
    · refine ⟨[], c, rest, rfl, by simp, hc, ?_⟩
      unfold extractVersion
      rw [List.find?_cons_of_pos _ hc]
    · have hb : includesStr "version" c = false := by simpa using hc
      have h2 : rest.any (fun l => includesStr "version" l) = true := by
        simpa [hb] using h
      obtain ⟨pre, line, post, hsplit, hpre, hline, hex⟩ := ih h2
      refine ⟨c :: pre, line, post, by rw [hsplit]; rfl, ?_, hline, ?_⟩
      · intro l hl
        rcases List.mem_cons.mp hl with rfl | hl2
        · exact hb
        · exact hpre l hl2
      · rw [← hex]
        unfold extractVersion
        rw [List.find?_cons_of_neg _ (by simp [hb])]

/-- C8 witness: the version is taken from the second line, the first line of
the file containing "version". -/
theorem c8_version_from_first_matching_line_witness :
    ∃ pre line post,
      (["openapi: 3.0.0", "version: 2.0.0"] : List String) = pre ++ line :: post ∧
      (∀ l ∈ pre, includesStr "version" l = false) ∧
      includesStr "version" line = true ∧
      extractVersion ["openapi: 3.0.0", "version: 2.0.0"] = versionToken line :=
  c8_version_from_first_matching_line ["openapi: 3.0.0", "version: 2.0.0"] rfl

/-- `npm-add-script` only ever fails with the duplicate-key error. -/
theorem npmAddScript_error {reg : List (String × String)} {k v : String} {e : RunErr}
    (h : npmAddScript reg k v = .error e) : e = .duplicateScriptKey := by
  unfold npmAddScript at h
  split at h
  · exact (Except.error.inj h).symm
  · exact absurd h (by simp)

/-- Registering a script list only ever fails with the duplicate-key error. -/
theorem addScripts_error {todo : List (String × String)} :
    ∀ {reg : List (String × String)} {e : RunErr},
      addScripts reg todo = .error e → e = .duplicateScriptKey := by
  induction todo with
  | nil =>
    intro reg e h
    simp [addScripts] at h
  | cons kv rest ih =>
    intro reg e h
    obtain ⟨k, v⟩ := kv
    unfold addScripts at h
    cases hn : npmAddScript reg k v with
    | error e2 =>
      rw [hn] at h
      simp only [] at h
      have h1 : e2 = e := Except.error.inj h
      rw [← h1]
      exact npmAddScript_error hn
    | ok reg2 =>
      rw [hn] at h
      exact ih h

/-- `copyFile` only ever fails because the source file is missing. -/
theorem copyFile_error {fs : FS} {src dst : String} {e : RunErr}
    (h : FS.copyFile fs src dst = .error e) : e = .copySrcMissing := by
  unfold FS.copyFile at h
  split at h
  · exact (Except.error.inj h).symm
  · exact absurd h (by simp)

/-- `rename` only ever fails because the source file is missing. -/
theorem renameFile_error {fs : FS} {src dst : String} {e : RunErr}
    (h : FS.renameFile fs src dst = .error e) : e = .renameSrcMissing := by
  unfold FS.renameFile at h
  split at h
  · exact (Except.error.inj h).symm
  · exact absurd h (by simp)

/-- `moveFile` only ever fails because the source file is missing. -/
theorem moveFile_error {fs : FS} {src dst : String} {e : RunErr}
    (h : FS.moveFile fs src dst = .error e) : e = .moveSrcMissing := by
  unfold FS.moveFile at h
  split at h
  · exact (Except.error.inj h).symm
  · exact absurd h (by simp)

/-- Once past the sentinel check, the pipeline can never produce the
no-version error again. -/
theorem scaffoldAndRelocate_ne_noVersion (fs : FS) (f ext v : String) (st : RunState) :
    scaffoldAndRelocate fs f ext v ≠ .failed .noVersionFound st := by
  intro h
  unfold scaffoldAndRelocate at h
  dsimp only at h
  split at h
  · simp at h
  · split at h
    · simp at h
    · split at h
      · rename_i e2 heq
        injection h with h1 _
        have hd := addScripts_error heq
        rw [h1] at hd
        exact absurd hd (by decide)
      · split at h
        · rename_i e2 heq
          injection h with h1 _
          have hd := copyFile_error heq
          rw [h1] at hd
          exact absurd hd (by decide)
        · split at h
          · rename_i e2 heq
            injection h with h1 _
            have hd := renameFile_error heq
            rw [h1] at hd
            exact absurd hd (by decide)
          · split at h
            · rename_i e2 heq
              injection h with h1 _
              have hd := moveFile_error heq
              rw [h1] at hd
              exact absurd hd (by decide)
            · simp at h

/-- C9: under the validations of the source, the run aborts with the
no-version error exactly when no line of the spec file contains "version";
every extracted token starts with the prepended `v`, so a false abort on a
matched line is impossible. -/
theorem c9_sentinel_abort_iff_no_version_line (inp : Input) (f : String)
    (content : List String)
    (hf : inp.argvF = some f) (hne : f ≠ "")
    (hread : inp.fs.lookupFile f = some content)
    (hext : openApiExtensions.contains (substringFrom1 (extname f)) = true) :
    ((∃ st, run inp = .failed .noVersionFound st) ↔
      ∀ l ∈ content, includesStr "version" l = false) ∧
    (∀ line : String,
      (versionToken line).data.head? = some 'v' ∧ versionToken line ≠ "0") := by
  refine ⟨?_, fun line => ⟨rfl, versionToken_ne_sentinel line⟩⟩
  rw [run_eq_of_valid inp f content hf hne hread hext]
  by_cases hv : extractVersion content = "0"
  · rw [if_pos hv]
    constructor
    · intro _
      exact (extractVersion_eq_sentinel_iff content).mp hv
    · intro _
      exact ⟨{ fs := inp.fs, scripts := [] }, rfl⟩
  · rw [if_neg hv]
    constructor
    · rintro ⟨st, hst⟩
      exact absurd hst
        (scaffoldAndRelocate_ne_noVersion inp.fs f (extname f) (extractVersion content) st)
    · intro hall
      exact absurd ((extractVersion_eq_sentinel_iff content).mpr hall) hv

/-- C9 witness. -/
theorem c9_sentinel_abort_iff_no_version_line_witness :
    ((∃ st, run c9Input = .failed .noVersionFound st) ↔
      ∀ l ∈ (["openapi: 3.0.0", "version: 2.0.0"] : List String),
        includesStr "version" l = false) ∧
    (∀ line : String,
      (versionToken line).data.head? = some 'v' ∧ versionToken line ≠ "0") :=
  c9_sentinel_abort_iff_no_version_line c9Input "spec.yaml"
    ["openapi: 3.0.0", "version: 2.0.0"] rfl (by decide) rfl rfl

/-- A character of the input that is not part of the pattern survives a
first-occurrence replacement. -/
theorem mem_jsReplaceFirst_of_not_mem {c : Char} {pat : List Char} (repl : List Char)
    {s : List Char} (hc : c ∈ s) (hnp : c ∉ pat) : c ∈ jsReplaceFirst pat repl s := by
  induction s with
  | nil => cases hc
  | cons a rest ih =>
    unfold jsReplaceFirst
    by_cases hp : pat.isPrefixOf (a :: rest) = true
    · rw [if_pos hp]
      have hpre : pat <+: a :: rest := List.isPrefixOf_iff_prefix.mp hp
      have hsplit : pat ++ (a :: rest).drop pat.length = a :: rest :=
        List.prefix_iff_eq_append.mp hpre
      rw [← hsplit] at hc
      rcases List.mem_append.mp hc with h1 | h2
      · exact absurd h1 hnp
      · exact List.mem_append.mpr (Or.inr h2)
    · rw [if_neg hp]
      rcases List.mem_cons.mp hc with rfl | h2
      · exact List.mem_cons_self _ _
      · exact List.mem_cons_of_mem _ (ih h2)

/-- The final path component never contains a separator. -/
theorem slash_not_mem_basenameOf (p : List Char) : '/' ∉ basenameOf p := by
  intro h
  rw [basenameOf, List.mem_reverse] at h
  have := List.mem_takeWhile_imp h
  simp at this

/-- The extension is carved out of the final path component. -/
theorem mem_basenameOf_of_mem_extnameOf {c : Char} {p : List Char}
    (h : c ∈ extnameOf p) : c ∈ basenameOf p := by
  simp only [extnameOf] at h
  split at h
  · simp at h
  · split at h
    · simp at h
    · exact List.mem_of_mem_drop h

/-- `path.extname` never contains a path separator. -/
theorem slash_not_mem_extname (p : String) : '/' ∉ (extname p).data := by
  intro h
  exact slash_not_mem_basenameOf p.data (mem_basenameOf_of_mem_extnameOf h)

/-- C10: the copy step's destination is the versioned `open-api` directory
with the supplied `-f` value appended verbatim (no basename extraction), and
every character of the supplied value outside the extension — in particular
any directory separator — survives into `fileNameWithVersion`, the name that
each generated script's `open-api/` reference embeds (shown for the four
scripts that reference `open-api/`). -/
theorem c10_copy_dest_and_script_refs_verbatim
    (fileName versionNumber fnv fnvne : String) :
    copyDestination versionNumber fileName
      = "api-spec/" ++ versionNumber ++ "/open-api/" ++ fileName ∧
    (∀ c ∈ fileName.data, c ∉ (extname fileName).data →
      c ∈ (fileNameWithVersionOf fileName (extname fileName) versionNumber).data) ∧
    '/' ∉ (extname fileName).data ∧
    (scaffoldScripts fnv fnvne).lookup "generate:swagger"
      = some ("npm run delete:swagger && npm run make:swagger && openapi-generator-cli generate -i open-api/"
          ++ fnv ++ " -g nodejs-express-server -o swagger-stub --additional-properties=serverPort=9999") ∧
    (scaffoldScripts fnv fnvne).lookup "generate:docs"
      = some ("npm run delete:docs && npm run make:docs && openapi-generator-cli generate -i open-api/"
          ++ fnv ++ " -g html2 -o html-docs") ∧
    (scaffoldScripts fnv fnvne).lookup "generate:markdown"
      = some ("npm run delete:markdown && npm run make:markdown && widdershins open-api/"
          ++ fnv ++ " -o markdown-docs/" ++ fnvne
          ++ "_dirty.md --omitHeader --expandBody --language_tabs \x27javascript:JavaScript\x27 && npm run markdown:prepare") ∧
    (scaffoldScripts fnv fnvne).lookup "start:prism" = some ("prism mock open-api/" ++ fnv) := by
  refine ⟨rfl, ?_, slash_not_mem_extname fileName, rfl, rfl, rfl, rfl⟩
  intro c hc hnp
  exact mem_jsReplaceFirst_of_not_mem _ hc hnp

/-- C10 witness: for the path `specs/api.yaml` the separator survives into
`fileNameWithVersion`. -/
theorem c10_copy_dest_and_script_refs_verbatim_witness :
    '/' ∈ (fileNameWithVersionOf "specs/api.yaml" (extname "specs/api.yaml") "v1-0-0").data :=
  (c10_copy_dest_and_script_refs_verbatim "specs/api.yaml" "v1-0-0" "x" "y").2.1
    '/' (by decide) (by decide)

end OpenApiGen
